import Mathlib

/-!
Shallow embedding of the ESP8266 dual-sensor sketch
(`main.cpp`, `getTImeAPI.cpp`, `sendRequest.cpp`) and proofs of the
spec's claims about it.

Modelling conventions:
  * `millis()` values are `Nat`s; the C `unsigned long` (32-bit on the
    ESP8266) subtraction `now - last` is modelled by `sub32`, which
    computes the wrap-around difference modulo 2^32.
  * `float` arithmetic is idealised over `ℚ`/`ℝ` (the spec's claims on
    sensor values are stated "within floating-point tolerance").
  * The network environment (Wi-Fi status over time, the SNTP-backed
    local clock, the HTTP stack) is abstracted as explicit function
    parameters, so each C function becomes a pure Lean function of the
    environment and its inputs.
-/

namespace EspDemo

/-! ### Input debouncer (`check_switch`, main.cpp lines 82-104) -/

/-- `const unsigned long DEBOUNCE = 250;` (main.cpp line 83). -/
def DEBOUNCE : Nat := 250

/-- Modulus of the 32-bit `unsigned long` used by `millis()` on ESP8266. -/
def U32 : Nat := 2 ^ 32

/-- 32-bit unsigned subtraction `a - b`, as performed by
`now - lastUltraMs` in C on `unsigned long` operands. -/
def sub32 (a b : Nat) : Nat := ((a % U32) + U32 - (b % U32)) % U32

/-- `enum NodeSel { NODE_NONE=0, NODE_ULTRA=1, NODE_SOUND=2 };`
(main.cpp line 75). -/
inductive NodeSel where
  | NODE_NONE
  | NODE_ULTRA
  | NODE_SOUND
deriving DecidableEq, Repr

export NodeSel (NODE_NONE NODE_ULTRA NODE_SOUND)

/-- The debounce bookkeeping globals
`unsigned long lastUltraMs = 0, lastSoundMs = 0;` (main.cpp line 82). -/
structure SwitchState where
  lastUltraMs : Nat
  lastSoundMs : Nat
deriving DecidableEq, Repr

/-- `check_switch()` (main.cpp lines 89-104).  The two active-low reads
`digitalRead(..) == LOW` are passed in as the booleans `ultraPressed`
and `soundPressed`, `millis()` as `now`; the function returns the
selected node together with the updated debounce state. -/
def check_switch (ultraPressed soundPressed : Bool) (now : Nat)
    (s : SwitchState) : NodeSel × SwitchState :=
  if ultraPressed = true ∧ DEBOUNCE < sub32 now s.lastUltraMs then
    (NODE_ULTRA, { s with lastUltraMs := now })
  else if soundPressed = true ∧ DEBOUNCE < sub32 now s.lastSoundMs then
    (NODE_SOUND, { s with lastSoundMs := now })
  else
    (NODE_NONE, s)

/-! ### Time resolver (`ensureWifi`, `getTimeIsoUtc`, getTImeAPI.cpp) -/

/-- `const time_t MIN_VALID = 1609459200UL;` — 2021-01-01 00:00:00 UTC
(getTImeAPI.cpp line 125). -/
def MIN_VALID : Nat := 1609459200

/-- The retry loop of `ensureWifi` (getTImeAPI.cpp lines 82-89):
`while (millis() - t0 < limit) { if (check) return true; delay(step); }`.
`check e` is the polled condition `e` milliseconds after loop entry.
The fuel argument only bounds the recursion; it is chosen large enough
that the `e < limit` test is what actually stops the loop. -/
def pollFind (check : Nat → Bool) (step limit : Nat) : Nat → Nat → Bool
  | 0, _ => false
  | fuel + 1, e =>
    if e < limit then
      if check e then true else pollFind check step limit fuel (e + step)
    else false

/-- `ensureWifi(uint32_t ms = 8000)` (getTImeAPI.cpp lines 74-94): fast
path if already connected, then poll every 300 ms for up to 8000 ms.
`status e` models `WiFi.status() == WL_CONNECTED` at `e` ms. -/
def ensureWifi (status : Nat → Bool) : Bool :=
  if status 0 then true else pollFind status 300 8000 27 0

/-- The SNTP validity wait of `getTimeIsoUtc` (getTImeAPI.cpp lines
126-134): `while ((millis()-t0) < 12000) { now = time(nullptr);
if (now > MIN_VALID) break; delay(250); }` — returns the final value of
`now`.  `clock e` models `time(nullptr)` at `e` ms after loop entry. -/
def sntpLoop (clock : Nat → Nat) : Nat → Nat → Nat → Nat
  | 0, _, now => now
  | fuel + 1, e, now =>
    if e < 12000 then
      let n := clock e
      if MIN_VALID < n then n else sntpLoop clock fuel (e + 250) n
    else now

/-- The value held by `now` after the SNTP wait loop (48 polls at
0, 250, ..., 11750 ms exhaust the 12000 ms window). -/
def sntpFinal (clock : Nat → Nat) : Nat := sntpLoop clock 48 0 0

/-- `'0' + d` — the ASCII digit character for `d < 10`. -/
def digitChar (d : Nat) : Char := Char.ofNat (48 + d)

/-- Fuel-bounded decimal rendering of a natural number, most significant
digit first (the digit sequence printed by `%d`-style formatting). -/
def natStrAux : Nat → Nat → List Char
  | 0, _ => []
  | fuel + 1, n =>
    if n < 10 then [digitChar n]
    else natStrAux fuel (n / 10) ++ [digitChar (n % 10)]

/-- Decimal rendering of a natural number (fuel `n + 1` always
suffices since the value shrinks by a factor of 10 per digit). -/
def natStr (n : Nat) : String := ⟨natStrAux (n + 1) n⟩

/-- Two-digit zero-padded rendering, as produced by the `strftime`
conversions `%m %d %H %M %S` for their in-range arguments. -/
def pad2 (n : Nat) : String := if n < 10 then "0" ++ natStr n else natStr n

/-- Decimal rendering of an integer (`%Y` for the year field). -/
def intStr (i : Int) : String :=
  if i < 0 then "-" ++ natStr (-i).toNat else natStr i.toNat

/-- Broken-down time, the model of C `struct tm` as used here: `year` is
the full year (C stores `tm_year = year - 1900`), `mon` is 1-based (C
stores `tm_mon = mon - 1`); the composition with `strftimeIso` below
renders exactly what `strftime` renders from the C fields. -/
structure Tm where
  year : Int
  mon : Nat
  mday : Nat
  hour : Nat
  minute : Nat
  sec : Nat
deriving DecidableEq, Repr

/-- Days-since-1970-01-01 to proleptic-Gregorian civil date
(year, month 1-12, day 1-31); the standard civil-from-days algorithm
used by C library `gmtime` implementations.  Divisions are floor
divisions (the `Int` divisor is positive, and the `Nat` intermediate
quantities are nonnegative). -/
def civilFromDays (z : Int) : Int × Nat × Nat :=
  let zs := z + 719468
  let era : Int := zs / 146097
  let doe : Nat := (zs % 146097).toNat
  let yoe : Nat := (doe - doe / 1460 + doe / 36524 - doe / 146096) / 365
  let y : Int := (yoe : Int) + era * 400
  let doy : Nat := doe - (365 * yoe + yoe / 4 - yoe / 100)
  let mp : Nat := (5 * doy + 2) / 153
  let d : Nat := doy - (153 * mp + 2) / 5 + 1
  let m : Nat := if mp < 10 then mp + 3 else mp - 9
  (if m ≤ 2 then y + 1 else y, m, d)

/-- Model of `gmtime`: split an epoch-seconds value into broken-down
UTC time. -/
def gmtime (t : Int) : Tm :=
  let days : Int := t / 86400
  let secs : Nat := (t % 86400).toNat
  let c := civilFromDays days
  { year := c.1, mon := c.2.1, mday := c.2.2,
    hour := secs / 3600, minute := secs % 3600 / 60, sec := secs % 60 }

/-- Model of `strftime(buf, _, "%Y-%m-%dT%H:%M:%S", t)`
(getTImeAPI.cpp line 153). -/
def strftimeIso (t : Tm) : String :=
  intStr t.year ++ "-" ++ pad2 t.mon ++ "-" ++ pad2 t.mday ++ "T" ++
    pad2 t.hour ++ ":" ++ pad2 t.minute ++ ":" ++ pad2 t.sec

/-- The network/clock environment `getTimeIsoUtc` runs against:
`wifiStatus e` is `WiFi.status() == WL_CONNECTED` at `e` ms after the
Wi-Fi wait starts, `clock e` is `time(nullptr)` at `e` ms after the
SNTP wait starts. -/
structure NetEnv where
  wifiStatus : Nat → Bool
  clock : Nat → Nat

/-- `#define NTP_ADD_HOURS -8` (getTImeAPI.cpp line 57). -/
def NTP_ADD_HOURS : Int := -8

/-- `#define APPEND_Z 0` (getTImeAPI.cpp line 63). -/
def APPEND_Z : Bool := false

/-- `getTimeIsoUtc` (getTImeAPI.cpp lines 110-170), with the
compile-time macros `APPEND_Z` and `NTP_ADD_HOURS` as the first two
parameters.  Failure (`return false` with `outIso` left empty) is
modelled as `none`; success as `some outIso`.  The `tzRegion` argument
is unnamed in the C signature (`const String& /*tzRegion*/`) and unused
in the body. -/
def getTimeIsoUtc (appendZ : Bool) (ntpAddHours : Int) (env : NetEnv)
    (_tzRegion : String) : Option String :=
  if ensureWifi env.wifiStatus = false then none
  else
    let now := sntpFinal env.clock
    if now ≤ MIN_VALID then none
    else
      let offsetSec : Int := ntpAddHours * 3600
      let shifted : Int := (now : Int) + offsetSec
      let buf := strftimeIso (gmtime shifted)
      some (buf ++ (if appendZ then "Z" else ""))

/-- `read_time` (main.cpp lines 108-111): forwards the global `tzRegion`
to `getTimeIsoUtc`. -/
def read_time (env : NetEnv) (tzRegion : String) : Option String :=
  getTimeIsoUtc APPEND_Z NTP_ADD_HOURS env tzRegion

/-! ### Payload transmitter (`urlEncode`, `postToServer`,
sendRequest.cpp) and the caller `transmit` (main.cpp) -/

/-- `isalnum(c) || c=='-'||c=='_'||c=='.'||c=='~'`
(sendRequest.cpp line 86); `isalnum` in the C locale accepts exactly the
ASCII letters and digits. -/
def isUnreservedChar (c : Char) : Bool :=
  (('0' ≤ c && c ≤ '9') || ('A' ≤ c && c ≤ 'Z') || ('a' ≤ c && c ≤ 'z')) ||
    c == '-' || c == '_' || c == '.' || c == '~'

/-- Indexing the table `const char *hex = "0123456789ABCDEF"`
(sendRequest.cpp line 83) at `n < 16`. -/
def hexUpper (n : Nat) : Char :=
  if n < 10 then Char.ofNat (48 + n) else Char.ofNat (55 + n)

/-- One iteration of the `urlEncode` loop (sendRequest.cpp lines 84-93):
an unreserved byte is kept, any other byte becomes
`'%', hex[(c>>4)&0xF], hex[c&0xF]`. -/
def urlEncodeChar (c : Char) : List Char :=
  if isUnreservedChar c then [c]
  else ['%', hexUpper (c.toNat / 16 % 16), hexUpper (c.toNat % 16)]

/-- `urlEncode` (sendRequest.cpp lines 81-95). -/
def urlEncode (s : String) : String :=
  ⟨(s.data.map urlEncodeChar).flatten⟩

/-- Model of the Arduino `String(value, 2)` rendering used for the two
numeric fields (sendRequest.cpp lines 131-132): for a finite value, an
optional minus sign, the integer digits, `'.'`, and two fractional
digits (`neg` the sign, `ip` the integer part, `frac` the two-digit
fraction). -/
def floatStr2 (neg : Bool) (ip frac : Nat) : String :=
  (if neg then "-" else "") ++ natStr ip ++ "." ++ pad2 frac

/-- The form body built by `postToServer` (sendRequest.cpp lines
128-132), with the two numeric fields already rendered to strings. -/
def postBody (nodeName isoUtc tzRegion distStr soundStr : String) :
    String :=
  "node_name=" ++ urlEncode nodeName ++
    "&measured_iso=" ++ urlEncode isoUtc ++
    "&tz_region=" ++ urlEncode tzRegion ++
    "&distance_cm=" ++ distStr ++
    "&sound_db=" ++ soundStr

/-- The HTTP stack `postToServer` runs against: `beginOk url` models
`https.begin(*client, url)`, `post body` models `https.POST(body)`
(positive values are genuine HTTP status codes, non-positive values are
client-side transport errors), `response` models `https.getString()`. -/
structure HttpEnv where
  beginOk : String → Bool
  post : String → Int
  response : String

/-- `postToServer` (sendRequest.cpp lines 100-143).  The two trailing
arguments model the caller-provided contents of the out-parameters
`httpCodeOut`/`bodyOut` before the call; the result triple is
`(return value, httpCodeOut, bodyOut)` after the call. -/
def postToServer (env : HttpEnv)
    (baseUrl path nodeName isoUtc tzRegion distStr soundStr : String)
    (_prevCode : Int) (_prevBody : String) : Bool × Int × String :=
  let httpCodeOut : Int := 0
  let bodyOut : String := ""
  let full := baseUrl ++ path
  if env.beginOk full = false then (false, httpCodeOut, bodyOut)
  else
    let body := postBody nodeName isoUtc tzRegion distStr soundStr
    let httpCodeOut := env.post body
    let bodyOut := env.response
    (decide (0 < httpCodeOut), httpCodeOut, bodyOut)

/-- `String nodeUltraName = "Ultrasonic_Sensor";` (main.cpp line 78). -/
def nodeUltraName : String := "Ultrasonic_Sensor"

/-- `String nodeSoundName = "Sound_Sensor_MAX4466";` (main.cpp line 79). -/
def nodeSoundName : String := "Sound_Sensor_MAX4466"

/-- `const String SERVER_BASE` (main.cpp line 55). -/
def SERVER_BASE : String := "https://markpulido.io/api"

/-- `const String POST_PATH` (main.cpp line 56). -/
def POST_PATH : String := "/ingest.php"

/-- `transmit` (main.cpp lines 140-148): picks the node name, calls
`postToServer`, and reports success iff the call returned `true` and the
status code is in the 2xx range.  `code0`/`resp0` model the
uninitialised locals `int code; String resp;` passed as
out-parameters. -/
def transmit (env : HttpEnv) (who : NodeSel)
    (isoUtc tzRegion distStr soundStr : String)
    (code0 : Int) (resp0 : String) : Bool :=
  let node := if who = NODE_ULTRA then nodeUltraName else nodeSoundName
  let r := postToServer env SERVER_BASE POST_PATH node isoUtc tzRegion
    distStr soundStr code0 resp0
  r.1 && decide (200 ≤ r.2.1) && decide (r.2.1 < 300)

/-! ### Sensor readers (main.cpp) -/

/-- `read_sensor_1` (main.cpp lines 115-123).  `duration` is the value
returned by `pulseIn(PIN_ECHO, HIGH, 30000UL)` in microseconds; on a
30 ms timeout `pulseIn` returns 0 and the function returns `NAN`,
modelled as `none`.  The `float` product `duration * 0.0343f / 2.0f` is
idealised over `ℚ` (the claim is stated up to floating-point
tolerance). -/
def read_sensor_1 (duration : Nat) : Option ℚ :=
  if duration = 0 then none
  else some ((duration : ℚ) * (343 / 10000) / 2)

/-- `read_sensor_2` (main.cpp lines 127-136).  `samples` are the 200
`analogRead` values (0..1023); the code averages them, takes the
absolute deviation from the mid-rail value 512, floors it at 1 and
converts to `20 * log10`.  `float` arithmetic is idealised over `ℚ`/`ℝ`;
since `max level 1 ≥ 1`, the logarithm is a genuine real number, so the
final C clamp `if (!isfinite(db)) db = 0.0f;` can never fire and is a
no-op in this model. -/
noncomputable def read_sensor_2 (samples : List ℕ) : ℝ :=
  let sum : ℚ := (samples.sum : ℚ)
  let adc : ℚ := sum / 200
  let level : ℚ := |adc - 512|
  20 * Real.logb 10 (max (level : ℝ) 1)

theorem sub32_of_le {a b : Nat} (hb : b ≤ a) (ha : a < U32) :
    sub32 a b = a - b := by
  have hbU : b < U32 := lt_of_le_of_lt hb ha
  unfold sub32
  rw [Nat.mod_eq_of_lt ha, Nat.mod_eq_of_lt hbU]
  unfold U32 at *
  omega

/-- C1: for each of the two input signals, if the signal's first trigger
is outside any earlier debounce window (so `check_switch` yields its
sampling request) and the signal triggers again less than
`DEBOUNCE = 250` ms later in monotonic time, then the first call returns
that signal's request and the second call does not return a request for
that signal. -/
theorem check_switch_debounce (s : SwitchState) (now1 now2 : Nat)
    (sp1 up2 sp2 : Bool)
    (h12 : now1 ≤ now2) (h2 : now2 < U32)
    (hsep : now2 - now1 < DEBOUNCE) :
    (DEBOUNCE < sub32 now1 s.lastUltraMs →
      (check_switch true sp1 now1 s).1 = NODE_ULTRA ∧
      (check_switch up2 sp2 now2 (check_switch true sp1 now1 s).2).1 ≠
        NODE_ULTRA) ∧
    (DEBOUNCE < sub32 now1 s.lastSoundMs →
      (check_switch false true now1 s).1 = NODE_SOUND ∧
      (check_switch up2 true now2 (check_switch false true now1 s).2).1 ≠
        NODE_SOUND) := by
  have hs12 : sub32 now2 now1 = now2 - now1 := sub32_of_le h12 h2
  have hnot : ¬ DEBOUNCE < sub32 now2 now1 := by
    rw [hs12]; omega
  constructor
  · intro hU
    have hfst : check_switch true sp1 now1 s =
        (NODE_ULTRA, { s with lastUltraMs := now1 }) := by
      unfold check_switch
      rw [if_pos ⟨rfl, hU⟩]
    refine ⟨by rw [hfst], ?_⟩
    rw [hfst]
    unfold check_switch
    rw [if_neg (by rintro ⟨-, h⟩; exact hnot h)]
    split
    · simp
    · simp
  · intro hS
    have hUneg : ¬ (false = true ∧
        DEBOUNCE < sub32 now1 s.lastUltraMs) := by
      rintro ⟨h, -⟩; exact Bool.false_ne_true h
    have hfst : check_switch false true now1 s =
        (NODE_SOUND, { s with lastSoundMs := now1 }) := by
      unfold check_switch
      rw [if_neg hUneg, if_pos ⟨rfl, hS⟩]
    refine ⟨by rw [hfst], ?_⟩
    rw [hfst]
    unfold check_switch
    split
    · simp
    · rw [if_neg (by rintro ⟨-, h⟩; exact hnot h)]
      simp

/-- Witness for C1 at a concrete input: a trigger at 300 ms fires, a
re-trigger 100 ms later is suppressed. -/
theorem check_switch_debounce_witness :
    (check_switch true false 300 ⟨0, 0⟩).1 = NODE_ULTRA ∧
    (check_switch true true 400 (check_switch true false 300 ⟨0, 0⟩).2).1 ≠
      NODE_ULTRA :=
  (check_switch_debounce ⟨0, 0⟩ 300 400 false true true (by decide)
    (by decide) (by decide)).1 (by decide)

/-- C7 counterexample: with both buttons active (both read LOW) in the
same poll, `check_switch` returns the sound request, not the distance
one, when the distance button is still inside its debounce window
(`lastUltraMs = 500`, `now = 600`) while the sound button is not
(`lastSoundMs = 0`). -/
theorem check_switch_both_active_counterexample :
    (check_switch true true 600 ⟨500, 0⟩).1 = NODE_SOUND := by decide

/-- C7 (amended): whenever both input signals are active in the same
poll and the distance signal is outside its debounce window, the call
returns the distance sampling request, not the sound one. -/
theorem check_switch_ultra_priority (now : Nat) (s : SwitchState)
    (h : DEBOUNCE < sub32 now s.lastUltraMs) :
    (check_switch true true now s).1 = NODE_ULTRA := by
  unfold check_switch
  rw [if_pos ⟨rfl, h⟩]

/-- Witness for the amended C7 at a concrete input. -/
theorem check_switch_ultra_priority_witness :
    (check_switch true true 300 ⟨0, 0⟩).1 = NODE_ULTRA :=
  check_switch_ultra_priority 300 ⟨0, 0⟩ (by decide)

theorem pollFind_eq_true_iff (check : Nat → Bool) (step limit : Nat) :
    ∀ fuel e, pollFind check step limit fuel e = true ↔
      ∃ k, k < fuel ∧ e + step * k < limit ∧ check (e + step * k) = true := by
  intro fuel
  induction fuel with
  | zero =>
    intro e
    constructor
    · intro h; simp [pollFind] at h
    · rintro ⟨k, hk, -⟩; omega
  | succ f ih =>
    intro e
    simp only [pollFind]
    by_cases hel : e < limit
    · rw [if_pos hel]
      by_cases hc : check e = true
      · rw [if_pos hc]
        constructor
        · intro _
          exact ⟨0, by omega, by simpa using hel, by simpa using hc⟩
        · intro _; rfl
      · rw [if_neg hc, ih (e + step)]
        constructor
        · rintro ⟨k, hk, hlt, hch⟩
          refine ⟨k + 1, by omega, ?_, ?_⟩
          · rw [Nat.mul_succ]; omega
          · have he : e + step * (k + 1) = e + step + step * k := by
              rw [Nat.mul_succ]; omega
            rw [he]; exact hch
        · rintro ⟨k, hk, hlt, hch⟩
          cases k with
          | zero => simp at hlt hch; exact absurd hch hc
          | succ j =>
            have he : e + step * (j + 1) = e + step + step * j := by
              rw [Nat.mul_succ]; omega
            rw [he] at hlt hch
            exact ⟨j, by omega, hlt, hch⟩
    · rw [if_neg hel]
      constructor
      · intro h; exact absurd h (by simp)
      · rintro ⟨k, hk, hlt, -⟩; omega

theorem ensureWifi_eq_true_iff (status : Nat → Bool) :
    ensureWifi status = true ↔
      ∃ k, k < 27 ∧ status (300 * k) = true := by
  unfold ensureWifi
  by_cases h0 : status 0 = true
  · rw [if_pos h0]
    exact iff_of_true rfl ⟨0, by omega, by simpa using h0⟩
  · rw [if_neg h0, pollFind_eq_true_iff]
    constructor
    · rintro ⟨k, hk, hlt, hch⟩
      exact ⟨k, hk, by simpa using hch⟩
    · rintro ⟨k, hk, hch⟩
      exact ⟨k, hk, by omega, by simpa using hch⟩

theorem sntpLoop_gt_iff (clock : Nat → Nat) :
    ∀ fuel e now, now ≤ MIN_VALID →
      (MIN_VALID < sntpLoop clock fuel e now ↔
        ∃ k, k < fuel ∧ e + 250 * k < 12000 ∧
          MIN_VALID < clock (e + 250 * k)) := by
  intro fuel
  induction fuel with
  | zero =>
    intro e now hnow
    constructor
    · intro h; simp [sntpLoop] at h; omega
    · rintro ⟨k, hk, -⟩; omega
  | succ f ih =>
    intro e now hnow
    simp only [sntpLoop]
    by_cases hel : e < 12000
    · rw [if_pos hel]
      by_cases hc : MIN_VALID < clock e
      · rw [if_pos hc]
        constructor
        · intro _
          exact ⟨0, by omega, by simpa using hel, by simpa using hc⟩
        · intro _; exact hc
      · rw [if_neg hc, ih (e + 250) (clock e) (by omega)]
        constructor
        · rintro ⟨k, hk, hlt, hch⟩
          refine ⟨k + 1, by omega, ?_, ?_⟩
          · rw [Nat.mul_succ]; omega
          · have he : e + 250 * (k + 1) = e + 250 + 250 * k := by
              rw [Nat.mul_succ]; omega
            rw [he]; exact hch
        · rintro ⟨k, hk, hlt, hch⟩
          cases k with
          | zero => simp at hlt hch; omega
          | succ j =>
            have he : e + 250 * (j + 1) = e + 250 + 250 * j := by
              rw [Nat.mul_succ]; omega
            rw [he] at hlt hch
            exact ⟨j, by omega, hlt, hch⟩
    · rw [if_neg hel]
      constructor
      · intro h; omega
      · rintro ⟨k, hk, hlt, -⟩; omega

theorem sntpFinal_gt_iff (clock : Nat → Nat) :
    MIN_VALID < sntpFinal clock ↔
      ∃ k, k < 48 ∧ MIN_VALID < clock (250 * k) := by
  unfold sntpFinal
  rw [sntpLoop_gt_iff clock 48 0 0 (Nat.zero_le _)]
  constructor
  · rintro ⟨k, hk, hlt, hch⟩
    exact ⟨k, hk, by simpa using hch⟩
  · rintro ⟨k, hk, hch⟩
    exact ⟨k, hk, by omega, by simpa using hch⟩

/-- C9: `getTimeIsoUtc` ignores its time-zone region argument (and so
does `read_time`): for the same environment and any two region strings,
the success/failure outcome and the produced string coincide. -/
theorem getTimeIsoUtc_ignores_tzRegion (appendZ : Bool) (hrs : Int)
    (env : NetEnv) (r1 r2 : String) :
    getTimeIsoUtc appendZ hrs env r1 = getTimeIsoUtc appendZ hrs env r2 ∧
    read_time env r1 = read_time env r2 :=
  ⟨rfl, rfl⟩

/-- C2: whenever `getTimeIsoUtc` succeeds, the produced string is
exactly the `strftime` "%Y-%m-%dT%H:%M:%S" rendering of the broken-down
UTC time of `T + H*3600` seconds — where `T` is the epoch value obtained
from the time source and `H` the fixed hour offset — with a trailing 'Z'
appended if and only if the `APPEND_Z` flag is set. -/
theorem getTimeIsoUtc_formats_shifted_epoch (appendZ : Bool) (hrs : Int)
    (env : NetEnv) (tz out : String)
    (hsome : getTimeIsoUtc appendZ hrs env tz = some out) :
    out = strftimeIso (gmtime ((sntpFinal env.clock : Int) + hrs * 3600))
      ++ (if appendZ then "Z" else "") := by
  simp only [getTimeIsoUtc] at hsome
  split at hsome
  · exact Option.noConfusion hsome
  · split at hsome
    · exact Option.noConfusion hsome
    · exact (Option.some.inj hsome).symm

/-- Witness for C2: with the clock pinned at epoch 1700000000 and offset
-8 hours, the produced string is the rendering of epoch 1699971200. -/
theorem getTimeIsoUtc_formats_shifted_epoch_witness :
    "2023-11-14T14:13:20" =
      strftimeIso (gmtime
        ((sntpFinal (fun _ => 1700000000) : Int) + (-8) * 3600)) ++
        (if false then "Z" else "") :=
  getTimeIsoUtc_formats_shifted_epoch false (-8)
    ⟨fun _ => true, fun _ => 1700000000⟩ "America/Los_Angeles"
    "2023-11-14T14:13:20" (by decide)

/-- C4: `getTimeIsoUtc` fails exactly when Wi-Fi never reads connected
at one of its polls inside the 8-second window, or the local clock never
exceeds the `MIN_VALID` threshold (2021-01-01, epoch 1609459200) at one
of its polls inside the 12-second window; in every other case it
succeeds with a formatted timestamp. -/
theorem getTimeIsoUtc_failure_conditions (appendZ : Bool) (hrs : Int)
    (env : NetEnv) (tz : String) :
    (getTimeIsoUtc appendZ hrs env tz = none ↔
      (¬ ∃ k, k < 27 ∧ env.wifiStatus (300 * k) = true) ∨
      (¬ ∃ k, k < 48 ∧ MIN_VALID < env.clock (250 * k))) ∧
    ((∃ k, k < 27 ∧ env.wifiStatus (300 * k) = true) →
      (∃ k, k < 48 ∧ MIN_VALID < env.clock (250 * k)) →
      ∃ out, getTimeIsoUtc appendZ hrs env tz = some out) := by
  by_cases hw : ensureWifi env.wifiStatus = false
  · have hA : ¬ ∃ k, k < 27 ∧ env.wifiStatus (300 * k) = true := by
      rw [← ensureWifi_eq_true_iff]
      simp [hw]
    constructor
    · simp only [getTimeIsoUtc, if_pos hw]
      simp [hA]
    · intro hA2 _
      exact absurd hA2 hA
  · have hA : ∃ k, k < 27 ∧ env.wifiStatus (300 * k) = true := by
      rw [← ensureWifi_eq_true_iff]
      revert hw
      cases ensureWifi env.wifiStatus <;> simp
    by_cases hv : sntpFinal env.clock ≤ MIN_VALID
    · have hB : ¬ ∃ k, k < 48 ∧ MIN_VALID < env.clock (250 * k) := by
        rw [← sntpFinal_gt_iff]
        omega
      constructor
      · simp only [getTimeIsoUtc, if_neg hw, if_pos hv]
        simp [hB]
      · intro _ hB2
        exact absurd hB2 hB
    · have hB : ∃ k, k < 48 ∧ MIN_VALID < env.clock (250 * k) :=
        (sntpFinal_gt_iff _).1 (by omega)
      constructor
      · simp only [getTimeIsoUtc, if_neg hw, if_neg hv]
        simp [hA, hB]
      · intro _ _
        exact ⟨strftimeIso (gmtime ((sntpFinal env.clock : Int) + hrs * 3600))
            ++ (if appendZ then "Z" else ""),
          by simp only [getTimeIsoUtc, if_neg hw, if_neg hv]⟩

/-- Witness for C4: with Wi-Fi connected and the clock at epoch
1700000000, `getTimeIsoUtc` succeeds. -/
theorem getTimeIsoUtc_failure_conditions_witness :
    ∃ out, getTimeIsoUtc false (-8)
      ⟨fun _ => true, fun _ => 1700000000⟩ "UTC" = some out :=
  (getTimeIsoUtc_failure_conditions false (-8)
      ⟨fun _ => true, fun _ => 1700000000⟩ "UTC").2
    ⟨0, by omega, rfl⟩ ⟨0, by omega, by decide⟩

theorem digitChar_unreserved {d : Nat} (hd : d < 10) :
    isUnreservedChar (digitChar d) = true := by
  interval_cases d <;> decide

theorem natStrAux_unreserved :
    ∀ fuel n, ∀ c ∈ natStrAux fuel n, isUnreservedChar c = true := by
  intro fuel
  induction fuel with
  | zero => intro n c hc; simp [natStrAux] at hc
  | succ f ih =>
    intro n c hc
    simp only [natStrAux] at hc
    by_cases hn : n < 10
    · rw [if_pos hn] at hc
      simp only [List.mem_singleton] at hc
      subst hc
      exact digitChar_unreserved hn
    · rw [if_neg hn] at hc
      rcases List.mem_append.1 hc with h | h
      · exact ih _ _ h
      · simp only [List.mem_singleton] at h
        subst h
        exact digitChar_unreserved (Nat.mod_lt _ (by omega))

theorem flatten_map_urlEncodeChar (l : List Char)
    (h : ∀ c ∈ l, isUnreservedChar c = true) :
    (l.map urlEncodeChar).flatten = l := by
  induction l with
  | nil => rfl
  | cons c t ih =>
    simp only [List.map_cons, List.flatten_cons]
    rw [ih (fun x hx => h x (List.mem_cons_of_mem _ hx))]
    unfold urlEncodeChar
    rw [if_pos (h c (List.mem_cons_self _ _))]
    rfl

theorem urlEncode_fixed_of_unreserved {s : String}
    (h : ∀ c ∈ s.data, isUnreservedChar c = true) : urlEncode s = s := by
  cases s with
  | mk data =>
    unfold urlEncode
    exact congrArg String.mk (flatten_map_urlEncodeChar data h)

theorem natStr_unreserved (n : Nat) :
    ∀ c ∈ (natStr n).data, isUnreservedChar c = true := by
  intro c hc
  exact natStrAux_unreserved (n + 1) n c hc

theorem pad2_unreserved (n : Nat) :
    ∀ c ∈ (pad2 n).data, isUnreservedChar c = true := by
  intro c hc
  unfold pad2 at hc
  by_cases hn : n < 10
  · rw [if_pos hn] at hc
    rcases List.mem_append.1 hc with h | h
    · simp only [List.mem_singleton] at h
      subst h; decide
    · exact natStr_unreserved n c h
  · rw [if_neg hn] at hc
    exact natStr_unreserved n c hc

theorem floatStr2_data (neg : Bool) (ip frac : Nat) :
    (floatStr2 neg ip frac).data =
      (if neg = true then ['-'] else []) ++
        ((natStr ip).data ++ ('.' :: (pad2 frac).data)) := by
  have h1 : ("" : String).data = [] := rfl
  have h2 : ("-" : String).data = ['-'] := rfl
  have h3 : ("." : String).data = ['.'] := rfl
  cases neg <;> simp [floatStr2, String.data_append, h1, h2, h3]

theorem floatStr2_urlEncode_fixed (neg : Bool) (ip frac : Nat) :
    urlEncode (floatStr2 neg ip frac) = floatStr2 neg ip frac := by
  apply urlEncode_fixed_of_unreserved
  intro c hc
  rw [floatStr2_data] at hc
  rcases List.mem_append.1 hc with h | h
  · by_cases hn : neg = true
    · rw [if_pos hn] at h
      simp only [List.mem_singleton] at h
      subst h; decide
    · rw [if_neg hn] at h
      simp at h
  · rcases List.mem_append.1 h with h2 | h2
    · exact natStr_unreserved ip c h2
    · rcases List.mem_cons.1 h2 with h3 | h3
      · subst h3; decide
      · exact pad2_unreserved frac c h3

/-- C3: the `urlEncode` used on the form-body fields keeps every
alphanumeric or `-`/`_`/`.`/`~` character unchanged and turns every
other byte into `'%'` plus its two uppercase hex digits (drawn from the
table "0123456789ABCDEF"); encoding `"A b/c"` yields `"A%20b%2Fc"`; and
in the body built by `postToServer` every one of the five fields equals
its percent-encoding — the two numeric renderings are made of
unreserved characters only, so they coincide with their encodings. -/
theorem urlEncode_percent_encodes (node iso tz : String)
    (neg1 neg2 : Bool) (ip1 f1 ip2 f2 : Nat) :
    (∀ c : Char, isUnreservedChar c = true → urlEncodeChar c = [c]) ∧
    (∀ c : Char, isUnreservedChar c = false →
      urlEncodeChar c =
        ['%', hexUpper (c.toNat / 16 % 16), hexUpper (c.toNat % 16)]) ∧
    (∀ n : Nat, n < 16 → hexUpper n ∈ "0123456789ABCDEF".data) ∧
    urlEncode "A b/c" = "A%20b%2Fc" ∧
    postBody node iso tz (floatStr2 neg1 ip1 f1) (floatStr2 neg2 ip2 f2) =
      "node_name=" ++ urlEncode node ++
        "&measured_iso=" ++ urlEncode iso ++
        "&tz_region=" ++ urlEncode tz ++
        "&distance_cm=" ++ urlEncode (floatStr2 neg1 ip1 f1) ++
        "&sound_db=" ++ urlEncode (floatStr2 neg2 ip2 f2) := by
  refine ⟨?_, ?_, ?_, ?_, ?_⟩
  · intro c h
    simp [urlEncodeChar, h]
  · intro c h
    simp [urlEncodeChar, h]
  · intro n h
    interval_cases n <;> decide
  · decide
  · unfold postBody
    rw [floatStr2_urlEncode_fixed, floatStr2_urlEncode_fixed]

/-- Witness for C3: the unreserved character 'A' passes through, the
reserved character ' ' becomes `%20`. -/
theorem urlEncode_percent_encodes_witness :
    urlEncodeChar 'A' = ['A'] ∧ urlEncodeChar ' ' = ['%', '2', '0'] :=
  ⟨(urlEncode_percent_encodes "" "" "" false false 0 0 0 0).1 'A'
      (by decide),
    ((urlEncode_percent_encodes "" "" "" false false 0 0 0 0).2.1 ' '
      (by decide)).trans (by decide)⟩

/-- C5: `postToServer` returns `true` exactly when the connection setup
succeeded and `https.POST` produced a positive value — a genuine HTTP
status code, which is then what sits in `httpCodeOut` — and `false` on
setup failure; and the caller `transmit` reports success exactly when
`postToServer` returned `true` and the status code is in `[200, 300)`. -/
theorem postToServer_attempt_report (env : HttpEnv) (who : NodeSel)
    (isoUtc tzRegion distStr soundStr : String)
    (code0 : Int) (resp0 : String) (node : String)
    (hnode : node = if who = NODE_ULTRA then nodeUltraName
      else nodeSoundName)
    (r : Bool × Int × String)
    (hr : r = postToServer env SERVER_BASE POST_PATH node isoUtc tzRegion
      distStr soundStr code0 resp0) :
    (r.1 = true ↔ env.beginOk (SERVER_BASE ++ POST_PATH) = true ∧
      0 < env.post (postBody node isoUtc tzRegion distStr soundStr)) ∧
    (env.beginOk (SERVER_BASE ++ POST_PATH) = true →
      r.2.1 = env.post (postBody node isoUtc tzRegion distStr soundStr)) ∧
    (transmit env who isoUtc tzRegion distStr soundStr code0 resp0 = true ↔
      r.1 = true ∧ 200 ≤ r.2.1 ∧ r.2.1 < 300) := by
  subst hnode
  subst hr
  simp only [postToServer, transmit]
  by_cases hb : env.beginOk (SERVER_BASE ++ POST_PATH) = false
  · rw [if_pos hb]
    refine ⟨by simp [hb], ?_, by simp⟩
    intro h
    rw [h] at hb
    exact absurd hb (by simp)
  · rw [if_neg hb]
    have hbt : env.beginOk (SERVER_BASE ++ POST_PATH) = true := by
      revert hb
      cases env.beginOk (SERVER_BASE ++ POST_PATH) <;> simp
    refine ⟨by simp [hbt], fun _ => rfl, ?_⟩
    simp [Bool.and_assoc, and_assoc]

/-- Witness for C5: a setup success with HTTP status 200 makes both
`postToServer` report `true` and `transmit` report success. -/
theorem postToServer_attempt_report_witness :
    (postToServer ⟨fun _ => true, fun _ => 200, "ok"⟩ SERVER_BASE
      POST_PATH nodeUltraName "2023-11-14T14:13:20"
      "America/Los_Angeles" "17.15" "0.00" 0 "").2.1 = 200 :=
  (postToServer_attempt_report ⟨fun _ => true, fun _ => 200, "ok"⟩
    NODE_ULTRA "2023-11-14T14:13:20" "America/Los_Angeles" "17.15"
    "0.00" 0 "" nodeUltraName rfl _ rfl).2.1 rfl

/-- C10: `postToServer` resets its out-parameters before any network
activity — its result never depends on their previous contents — and on
a connection-setup failure it returns `false` with `httpCodeOut = 0` and
`bodyOut = ""`. -/
theorem postToServer_resets_out_params (env : HttpEnv)
    (baseUrl path nodeName isoUtc tzRegion distStr soundStr : String)
    (code1 code2 : Int) (body1 body2 : String) :
    (postToServer env baseUrl path nodeName isoUtc tzRegion distStr
        soundStr code1 body1 =
      postToServer env baseUrl path nodeName isoUtc tzRegion distStr
        soundStr code2 body2) ∧
    (env.beginOk (baseUrl ++ path) = false →
      postToServer env baseUrl path nodeName isoUtc tzRegion distStr
        soundStr code1 body1 = (false, 0, "")) := by
  refine ⟨rfl, fun hb => ?_⟩
  simp only [postToServer, if_pos hb]

/-- Witness for C10: after a `begin` failure, stale out-parameter
contents (`77`, `"stale"`) are not exposed. -/
theorem postToServer_resets_out_params_witness :
    postToServer ⟨fun _ => false, fun _ => 200, "ok"⟩ SERVER_BASE
      POST_PATH "n" "t" "z" "1.00" "0.00" 77 "stale" = (false, 0, "") :=
  (postToServer_resets_out_params ⟨fun _ => false, fun _ => 200, "ok"⟩
    SERVER_BASE POST_PATH "n" "t" "z" "1.00" "0.00" 77 0 "stale" "").2
    rfl

/-- C6: for a non-zero echo duration `D` (microseconds) the distance is
`D * 0.0343 / 2` centimetres, and the `pulseIn` timeout (duration 0)
yields the not-a-number sentinel (`none`), never a stale value. -/
theorem read_sensor_1_conversion (duration : Nat) :
    (duration ≠ 0 →
      read_sensor_1 duration = some ((duration : ℚ) * (343 / 10000) / 2)) ∧
    read_sensor_1 0 = none := by
  constructor
  · intro h
    simp [read_sensor_1, h]
  · simp [read_sensor_1]

/-- Witness for C6: a 1000 µs echo gives 17.15 cm. -/
theorem read_sensor_1_conversion_witness :
    read_sensor_1 1000 = some ((1000 : ℚ) * (343 / 10000) / 2) :=
  (read_sensor_1_conversion 1000).1 (by decide)

/-- C8: 200 samples constant at the analog mid-point 512 make
`read_sensor_2` return exactly 0 (the deviation is 0, its floor at 1
feeds the logarithm, and `log10 1 = 0`); in the real-valued model the
result is a genuine real number, so it is never NaN or infinite. -/
theorem read_sensor_2_midpoint_zero :
    read_sensor_2 (List.replicate 200 512) = 0 := by
  simp only [read_sensor_2]
  have hsum : (List.replicate 200 512 : List ℕ).sum = 102400 :=
    (List.sum_const_nat 200 512).trans (by norm_num)
  rw [hsum]
  have h0 : |((102400 : ℕ) : ℚ) / 200 - 512| = 0 := by norm_num
  rw [h0]
  rw [show (((0 : ℚ) : ℝ)) = 0 from by norm_num]
  rw [max_eq_right (by norm_num : (0 : ℝ) ≤ 1)]
  rw [Real.logb_one]
  norm_num

end EspDemo
